import Mathlib

/-!
Verification of the permission-evaluation core and the project serializers
of the flagsmith backend excerpt.

The permission classes themselves (FeaturePermissions, NestedProjectPermissions,
the grant-resolution helpers) are not part of the excerpt; only their unit tests
are. Following the spec, the evaluator is modelled here from the spec's
component contracts (sections 4.1 to 4.4): a world of organisation memberships,
direct user grants, group grants and group memberships, together with the pure
decision functions isOrgAdmin, effectiveGrant, requiredPermission,
has_permission and has_object_permission.

The serializer functions get_migration_status and get_use_edge_identities are
embedded directly from src/api/projects/serializers.py.
-/

/-- Role of an organisation membership: ordinary member or administrator. -/
inductive OrgRole where
  | user
  | admin
deriving DecidableEq, Repr

/-- Modelled from the spec: OrganisationMembership pairs a user with an
organisation and a role (section 3, Identity). -/
structure OrgMembership where
  user : Nat
  org : Nat
  role : OrgRole
deriving DecidableEq, Repr

/-- Modelled from the spec: a Project belongs to exactly one organisation
(section 3). -/
structure ProjectData where
  id : Nat
  organisation : Nat
deriving DecidableEq, Repr

/-- Modelled from the spec: a PermissionGrant attached directly to a user for a
project, carrying an admin boolean and a set of permission keys (section 3,
UserProjectPermission in the tests). -/
structure UserGrant where
  user : Nat
  project : Nat
  admin : Bool
  permissions : List String
deriving DecidableEq, Repr

/-- Modelled from the spec: a PermissionGrant attached to a group for a project
(section 3, UserPermissionGroupProjectPermission in the tests). -/
structure GroupGrant where
  group : Nat
  project : Nat
  admin : Bool
  permissions : List String
deriving DecidableEq, Repr

/-- Modelled from the spec: the read-only grant and membership state the
evaluator consults at request time (sections 1 and 3): organisation
memberships, direct user grants, group grants, group memberships
(group id, user id) and the resolvable projects. -/
structure World where
  memberships : List OrgMembership
  userGrants : List UserGrant
  groupGrants : List GroupGrant
  groupMembers : List (Nat × Nat)
  projects : List ProjectData
deriving DecidableEq, Repr

/-- Permission key from the registry (projects.permissions.VIEW_PROJECT). -/
def VIEW_PROJECT : String := "VIEW_PROJECT"

/-- Permission key from the registry (projects.permissions.CREATE_FEATURE). -/
def CREATE_FEATURE : String := "CREATE_FEATURE"

/-- Permission key from the registry (projects.permissions.DELETE_FEATURE). -/
def DELETE_FEATURE : String := "DELETE_FEATURE"

/-- Modelled from the spec: isOrgAdmin(user, organisation) returns true iff a
membership exists for that organisation and its role is administrator
(section 4.1); absence of membership is simply false. -/
def isOrgAdmin (w : World) (user org : Nat) : Bool :=
  w.memberships.any fun m => m.user == user && m.org == org && m.role == OrgRole.admin

/-- Whether user is a member of group gid (many-to-many membership,
section 3, PermissionGroup). -/
def isGroupMember (w : World) (gid user : Nat) : Bool :=
  w.groupMembers.any fun m => m.1 == gid && m.2 == user

/-- Modelled from the spec: the effective grant of a user on a project, the
result of the Grant Resolver (section 4.2). -/
structure EffectiveGrant where
  isAdmin : Bool
  permissions : List String
deriving DecidableEq, Repr

/-- All direct grants for (user, project) (section 4.2). -/
def directGrants (w : World) (user pid : Nat) : List UserGrant :=
  w.userGrants.filter fun g => g.user == user && g.project == pid

/-- All grants for (group, project) where the user is a member of the group
(section 4.2). -/
def groupDerivedGrants (w : World) (user pid : Nat) : List GroupGrant :=
  w.groupGrants.filter fun g => g.project == pid && isGroupMember w g.group user

/-- Modelled from the spec: effectiveGrant(user, project) collects the direct
grants and the group-derived grants; isAdmin is the logical OR of every
collected admin flag and permissions is the union of every collected key set;
absence of any grant yields no admin and the empty set (section 4.2). -/
def effectiveGrant (w : World) (user pid : Nat) : EffectiveGrant :=
  { isAdmin := ((directGrants w user pid).any fun g => g.admin)
      || ((groupDerivedGrants w user pid).any fun g => g.admin)
    permissions := ((directGrants w user pid).map fun g => g.permissions).flatten
      ++ ((groupDerivedGrants w user pid).map fun g => g.permissions).flatten }

/-- Modelled from the spec: requiredPermission(action, configuration): if the
action is an exact key in the configuration, return its mapped permission;
else, a read-style action ("list", "retrieve") with no explicit mapping
defaults to VIEW_PROJECT; else return none (section 4.3). -/
def requiredPermission (action : String) (conf : List (String × String)) : Option String :=
  match conf.find? (fun e => e.1 == action) with
  | some e => some e.2
  | none =>
    if action == "list" || action == "retrieve" then some VIEW_PROJECT
    else none

/-- Modelled from the spec: whether a resolved requirement is met by an
effective grant for a non-admin holder: a resolved key must be in the
effective permission set; an unmapped non-read action denies (sections 4.3,
4.4 step 6 with the default-DENY policy of section 9, and section 7). -/
def grantSatisfies (g : EffectiveGrant) (required : Option String) : Bool :=
  match required with
  | none => false
  | some k => g.permissions.contains k

/-- Modelled from the spec: the decision chain of section 4.4 once the project
is located: org-admin grants unconditionally; then project-level admin; then
the resolved required permission against the effective set. -/
def hasPermissionOnProject (w : World) (user : Nat) (action : String)
    (p : ProjectData) (conf : List (String × String)) : Bool :=
  if isOrgAdmin w user p.organisation then true
  else
    let g := effectiveGrant w user p.id
    if g.isAdmin then true
    else grantSatisfies g (requiredPermission action conf)

/-- Resolve a project from its identifier (section 4.4 step 1). -/
def findProject (w : World) (pid : Nat) : Option ProjectData :=
  w.projects.find? fun p => p.id == pid

/-- Modelled from the spec: hasPermission(user, action, projectId,
configuration). Project resolution fails closed: an unresolvable project id
yields false (sections 4.4 and 7). -/
def has_permission (w : World) (user : Nat) (action : String) (pid : Nat)
    (conf : List (String × String)) : Bool :=
  match findProject w pid with
  | none => false
  | some p => hasPermissionOnProject w user action p conf

/-- Modelled from the spec: the object handed to the object-level entry point,
carrying a project reference which may be missing on malformed input
(sections 4.4 and 7). -/
structure TargetObject where
  project : Option ProjectData
deriving DecidableEq, Repr

/-- Modelled from the spec: hasObjectPermission(user, action, object,
configuration): identical decision chain, but the project is derived from the
object's project reference; a missing reference fails closed (sections 4.4
and 7). -/
def has_object_permission (w : World) (user : Nat) (action : String)
    (obj : TargetObject) (conf : List (String × String)) : Bool :=
  match obj.project with
  | none => false
  | some p => hasPermissionOnProject w user action p conf

/-- Modelled from the spec: adding a group grant; grant state is otherwise
unchanged (section 3, lifecycle). -/
def addGroupGrant (w : World) (g : GroupGrant) : World :=
  { w with groupGrants := g :: w.groupGrants }

/-- Modelled from the spec: adding a direct user grant. -/
def addUserGrant (w : World) (g : UserGrant) : World :=
  { w with userGrants := g :: w.userGrants }

/-- Modelled from the spec: removing a user from a group (section 8, the
group-equivalence property). -/
def removeGroupMember (w : World) (gid user : Nat) : World :=
  { w with groupMembers := w.groupMembers.filter fun m => !(m.1 == gid && m.2 == user) }

/-! Embedding of src/api/projects/serializers.py. -/

/-- Value of ProjectIdentityMigrationStatus.NOT_APPLICABLE. -/
def NOT_APPLICABLE : String := "NOT_APPLICABLE"

/-- Value of ProjectIdentityMigrationStatus.MIGRATION_COMPLETED. -/
def MIGRATION_COMPLETED : String := "MIGRATION_COMPLETED"

/-- The Django settings consulted by the serializer. An empty string models an
unset (falsy) PROJECT_METADATA_TABLE_NAME_DYNAMO, matching the truthiness test
in get_migration_status. -/
structure DjangoSettings where
  PROJECT_METADATA_TABLE_NAME_DYNAMO : String
deriving DecidableEq, Repr

/-- The Project model instance as the serializers read it: id,
is_edge_project_by_default, and the related features and segments whose
counts the retrieve serializer derives. -/
structure ProjectInstance where
  id : Nat
  is_edge_project_by_default : Bool
  features : List Nat
  segments : List Nat
deriving DecidableEq, Repr

/-- The serializer context restricted to the one key the excerpt uses:
context["migration_status"]. none models the key being absent. -/
def SerializerContext : Type := Option String

/-- ProjectListSerializer.get_migration_status: NOT_APPLICABLE when the dynamo
table setting is falsy; MIGRATION_COMPLETED when the project is edge by
default; otherwise the IdentityMigrator status for the project id (the
migrator is an external collaborator, passed as a function of the project id).
It stores the status in the context and returns it. -/
def get_migration_status (settings : DjangoSettings) (migrator : Nat → String)
    (obj : ProjectInstance) (_ctx : SerializerContext) : String × SerializerContext :=
  let migration_status :=
    if settings.PROJECT_METADATA_TABLE_NAME_DYNAMO == "" then NOT_APPLICABLE
    else if obj.is_edge_project_by_default then MIGRATION_COMPLETED
    else migrator obj.id
  (migration_status, some migration_status)

/-- ProjectListSerializer.get_use_edge_identities: reads
context["migration_status"] and compares it to MIGRATION_COMPLETED. A missing
key is a KeyError, modelled as none. -/
def get_use_edge_identities (ctx : SerializerContext) : Option Bool :=
  match ctx with
  | none => none
  | some s => some (s == MIGRATION_COMPLETED)

/-- ProjectRetrieveSerializer.get_total_features: instance.features.count(). -/
def get_total_features (obj : ProjectInstance) : Nat :=
  obj.features.length

/-- ProjectRetrieveSerializer.get_total_segments: instance.segments.count(). -/
def get_total_segments (obj : ProjectInstance) : Nat :=
  obj.segments.length

/-- The method fields produced when a ProjectRetrieveSerializer serializes a
project (the plain model fields are copied verbatim and omitted here). -/
structure ProjectRetrieveFields where
  migration_status : String
  use_edge_identities : Bool
  total_features : Nat
  total_segments : Nat
deriving DecidableEq, Repr

/-- Serialization of one project by ProjectRetrieveSerializer: the method
fields are evaluated in Meta.fields order, migration_status before
use_edge_identities, threading the serializer context; a KeyError anywhere
yields none. The context starts without the migration_status key. -/
def projectRetrieveSerialize (settings : DjangoSettings) (migrator : Nat → String)
    (obj : ProjectInstance) : Option ProjectRetrieveFields :=
  let ctx0 : SerializerContext := none
  let r1 := get_migration_status settings migrator obj ctx0
  match get_use_edge_identities r1.2 with
  | none => none
  | some uei =>
    some { migration_status := r1.1
           use_edge_identities := uei
           total_features := get_total_features obj
           total_segments := get_total_segments obj }

/-- A concrete world used by several witnesses: organisation 1 owning project 1,
user 1 an organisation administrator, no grants. -/
def w1 : World :=
  { memberships := [⟨1, 1, OrgRole.admin⟩]
    userGrants := []
    groupGrants := []
    groupMembers := []
    projects := [⟨1, 1⟩] }

/-- A concrete world: user 1 an ordinary member of organisation 1, no grants of
any kind, project 1 owned by organisation 1. -/
def w2 : World :=
  { memberships := [⟨1, 1, OrgRole.user⟩]
    userGrants := []
    groupGrants := []
    groupMembers := []
    projects := [⟨1, 1⟩] }

/-- A concrete world: user 1 an ordinary member of organisation 1 holding a
direct non-admin VIEW_PROJECT grant on project 1. -/
def w3 : World :=
  { memberships := [⟨1, 1, OrgRole.user⟩]
    userGrants := [⟨1, 1, false, [VIEW_PROJECT]⟩]
    groupGrants := []
    groupMembers := []
    projects := [⟨1, 1⟩] }

/-- A concrete world: user 1 an ordinary member of organisation 1, member of
group 7 which holds an admin grant on project 1. -/
def w4 : World :=
  { memberships := [⟨1, 1, OrgRole.user⟩]
    userGrants := []
    groupGrants := [⟨7, 1, true, []⟩]
    groupMembers := [(7, 1)]
    projects := [⟨1, 1⟩] }

/-- A concrete world: user 1 an ordinary member of organisation 1, member of
group 7, no grants yet, project 1 owned by organisation 1. -/
def w5 : World :=
  { memberships := [⟨1, 1, OrgRole.user⟩]
    userGrants := []
    groupGrants := []
    groupMembers := [(7, 1)]
    projects := [⟨1, 1⟩] }

/-! Theorems. -/

/-- C1: for every user who is an organisation administrator of a project's
organisation, and for every action and every project-level grant state (the
world quantifies over all grants), both has_permission and
has_object_permission return true. -/
theorem orgAdmin_grants_everything (w : World) (user : Nat) (action : String)
    (conf : List (String × String)) (pid : Nat) (p : ProjectData) (obj : TargetObject)
    (hfind : findProject w pid = some p)
    (hobj : obj.project = some p)
    (hadmin : isOrgAdmin w user p.organisation = true) :
    has_permission w user action pid conf = true ∧
      has_object_permission w user action obj conf = true := by
  constructor
  · simp [has_permission, hfind, hasPermissionOnProject, hadmin]
  · simp [has_object_permission, hobj, hasPermissionOnProject, hadmin]

/-- Witness for C1 at organisation admin 1, action "destroy", project 1. -/
theorem orgAdmin_grants_everything_witness :
    has_permission w1 1 "destroy" 1 [] = true ∧
      has_object_permission w1 1 "destroy" ⟨some ⟨1, 1⟩⟩ [] = true :=
  orgAdmin_grants_everything w1 1 "destroy" [] 1 ⟨1, 1⟩ ⟨some ⟨1, 1⟩⟩ rfl rfl rfl

/-- C4: has_object_permission on an object whose project reference resolves to
project p returns the same boolean as has_permission invoked with p's
identifier, for every user, action and configuration. -/
theorem object_and_collection_agree (w : World) (user : Nat) (action : String)
    (conf : List (String × String)) (obj : TargetObject) (p : ProjectData)
    (hobj : obj.project = some p)
    (hfind : findProject w p.id = some p) :
    has_object_permission w user action obj conf =
      has_permission w user action p.id conf := by
  simp [has_object_permission, has_permission, hobj, hfind]

/-- Witness for C4 at a non-admin user, action "list", project 1. -/
theorem object_and_collection_agree_witness :
    has_object_permission w1 2 "list" ⟨some ⟨1, 1⟩⟩ [] =
      has_permission w1 2 "list" 1 [] :=
  object_and_collection_agree w1 2 "list" [] ⟨some ⟨1, 1⟩⟩ ⟨1, 1⟩ rfl rfl

/-- C7: the evaluator is total (the functions are total Lean functions by
construction) and fail-closed: an unresolvable project id, a missing object
project reference, and an unmapped non-read action for a non-admin all
return false, never an error. -/
theorem evaluator_fails_closed :
    (∀ (w : World) (user : Nat) (action : String) (pid : Nat)
        (conf : List (String × String)),
        findProject w pid = none → has_permission w user action pid conf = false) ∧
    (∀ (w : World) (user : Nat) (action : String) (obj : TargetObject)
        (conf : List (String × String)),
        obj.project = none → has_object_permission w user action obj conf = false) ∧
    (∀ (w : World) (user : Nat) (action : String) (p : ProjectData)
        (conf : List (String × String)),
        requiredPermission action conf = none →
        isOrgAdmin w user p.organisation = false →
        (effectiveGrant w user p.id).isAdmin = false →
        hasPermissionOnProject w user action p conf = false) := by
  refine ⟨?_, ?_, ?_⟩
  · intro w user action pid conf h
    simp [has_permission, h]
  · intro w user action obj conf h
    simp [has_object_permission, h]
  · intro w user action p conf hreq horg hadm
    simp [hasPermissionOnProject, horg, hadm, grantSatisfies, hreq]

/-- Witness for C7: unknown project id 2, object without project reference,
and the unmapped write action "create" under the empty configuration. -/
theorem evaluator_fails_closed_witness :
    has_permission w1 1 "list" 2 [] = false ∧
      has_object_permission w1 1 "list" ⟨none⟩ [] = false ∧
      hasPermissionOnProject w1 2 "create" ⟨1, 1⟩ [] = false :=
  ⟨evaluator_fails_closed.1 w1 1 "list" 2 [] rfl,
   evaluator_fails_closed.2.1 w1 1 "list" ⟨none⟩ [] rfl,
   evaluator_fails_closed.2.2 w1 2 "create" ⟨1, 1⟩ [] rfl rfl rfl⟩

/-- C8: whenever ProjectRetrieveSerializer serializes a project, the
use_edge_identities field equals the test migration_status ==
MIGRATION_COMPLETED, for every dynamo table setting, migrator and project
state. -/
theorem use_edge_identities_consistent (settings : DjangoSettings)
    (migrator : Nat → String) (obj : ProjectInstance) (r : ProjectRetrieveFields)
    (h : projectRetrieveSerialize settings migrator obj = some r) :
    r.use_edge_identities = (r.migration_status == MIGRATION_COMPLETED) := by
  have hred : projectRetrieveSerialize settings migrator obj =
      some { migration_status := (get_migration_status settings migrator obj none).1
             use_edge_identities :=
               (get_migration_status settings migrator obj none).1 == MIGRATION_COMPLETED
             total_features := get_total_features obj
             total_segments := get_total_segments obj } := rfl
  rw [hred] at h
  injection h with h
  subst h
  rfl

/-- Witness for C8 with the dynamo table name unset. -/
theorem use_edge_identities_consistent_witness :
    (⟨NOT_APPLICABLE, false, 0, 0⟩ : ProjectRetrieveFields).use_edge_identities =
      ((⟨NOT_APPLICABLE, false, 0, 0⟩ : ProjectRetrieveFields).migration_status ==
        MIGRATION_COMPLETED) :=
  use_edge_identities_consistent ⟨""⟩ (fun _ => "S") ⟨1, true, [], []⟩
    ⟨NOT_APPLICABLE, false, 0, 0⟩ rfl

/-- C9: get_migration_status returns NOT_APPLICABLE when the dynamo table
setting is unset (for every migrator, so the migrator is never consulted),
MIGRATION_COMPLETED when the project is edge by default, and otherwise the
migrator's reported status for the project id, in that precedence order. -/
theorem get_migration_status_precedence (settings : DjangoSettings)
    (migrator : Nat → String) (obj : ProjectInstance) (ctx : SerializerContext) :
    (settings.PROJECT_METADATA_TABLE_NAME_DYNAMO = "" →
        (get_migration_status settings migrator obj ctx).1 = NOT_APPLICABLE) ∧
    (settings.PROJECT_METADATA_TABLE_NAME_DYNAMO ≠ "" →
        obj.is_edge_project_by_default = true →
        (get_migration_status settings migrator obj ctx).1 = MIGRATION_COMPLETED) ∧
    (settings.PROJECT_METADATA_TABLE_NAME_DYNAMO ≠ "" →
        obj.is_edge_project_by_default = false →
        (get_migration_status settings migrator obj ctx).1 = migrator obj.id) := by
  refine ⟨fun h => ?_, fun h he => ?_, fun h he => ?_⟩
  · simp [get_migration_status, h]
  · simp [get_migration_status, h, he]
  · simp [get_migration_status, h, he]

/-- Witness for C9 at the three branches. -/
theorem get_migration_status_precedence_witness :
    (get_migration_status ⟨""⟩ (fun _ => "S") ⟨1, false, [], []⟩ none).1 = NOT_APPLICABLE ∧
      (get_migration_status ⟨"tbl"⟩ (fun _ => "S") ⟨1, true, [], []⟩ none).1 =
        MIGRATION_COMPLETED ∧
      (get_migration_status ⟨"tbl"⟩ (fun _ => "S") ⟨1, false, [], []⟩ none).1 = "S" :=
  ⟨(get_migration_status_precedence ⟨""⟩ (fun _ => "S") ⟨1, false, [], []⟩ none).1 rfl,
   (get_migration_status_precedence ⟨"tbl"⟩ (fun _ => "S") ⟨1, true, [], []⟩ none).2.1
     (by decide) rfl,
   (get_migration_status_precedence ⟨"tbl"⟩ (fun _ => "S") ⟨1, false, [], []⟩ none).2.2
     (by decide) rfl⟩

/-- A user holding a grant with an empty permission set never satisfies a
required permission. -/
theorem grantSatisfies_no_permissions (b : Bool) (req : Option String) :
    grantSatisfies ⟨b, []⟩ req = false := by
  cases req <;> rfl

/-- C2 counterexample: in w2, user 1 holds no grant on project 1 and no
organisation-admin role, yet has_permission with action "list" returns false,
not true as the claim states (the default VIEW_PROJECT is required and the
user lacks it). -/
theorem no_grant_list_denied_counterexample :
    isOrgAdmin w2 1 1 = false ∧
      directGrants w2 1 1 = [] ∧
      groupDerivedGrants w2 1 1 = [] ∧
      has_permission w2 1 "list" 1 [] = false ∧
      has_permission w2 1 "create" 1 [("create", CREATE_FEATURE)] = false :=
  ⟨rfl, rfl, rfl, rfl, rfl⟩

/-- C2 (amended): for a user who holds no grant on the project and no
organisation-admin role, has_permission with action "list" returns false (the
default VIEW_PROJECT is required and the user lacks it), and has_permission
with action "create" returns false when "create" maps to CREATE_FEATURE. -/
theorem no_grant_read_and_create_denied (w : World) (user pid : Nat)
    (p : ProjectData) (conf : List (String × String))
    (hfind : findProject w pid = some p)
    (horg : isOrgAdmin w user p.organisation = false)
    (hd : directGrants w user p.id = [])
    (hg : groupDerivedGrants w user p.id = [])
    (_hcreate : requiredPermission "create" conf = some CREATE_FEATURE) :
    has_permission w user "list" pid conf = false ∧
      has_permission w user "create" pid conf = false := by
  have heff : effectiveGrant w user p.id = ⟨false, []⟩ := by
    simp [effectiveGrant, hd, hg]
  constructor <;>
    simp [has_permission, hfind, hasPermissionOnProject, horg, heff,
      grantSatisfies_no_permissions]

/-- Witness for C2 (amended) in the world w2 with "create" mapped to
CREATE_FEATURE. -/
theorem no_grant_read_and_create_denied_witness :
    has_permission w2 1 "list" 1 [("create", CREATE_FEATURE)] = false ∧
      has_permission w2 1 "create" 1 [("create", CREATE_FEATURE)] = false :=
  no_grant_read_and_create_denied w2 1 1 ⟨1, 1⟩ [("create", CREATE_FEATURE)]
    rfl rfl rfl rfl rfl

/-- C3: a user holding a grant with admin true on a project, either directly or
through membership of a group holding such a grant, passes has_permission and
has_object_permission for every action and configuration, regardless of the
grant's permission-key set. -/
theorem admin_grant_grants_everything (w : World) (user : Nat) (action : String)
    (conf : List (String × String)) (pid : Nat) (p : ProjectData) (obj : TargetObject)
    (hfind : findProject w pid = some p)
    (hobj : obj.project = some p)
    (hadm : (∃ g ∈ w.userGrants, g.user = user ∧ g.project = p.id ∧ g.admin = true) ∨
        (∃ g ∈ w.groupGrants, g.project = p.id ∧
          isGroupMember w g.group user = true ∧ g.admin = true)) :
    has_permission w user action pid conf = true ∧
      has_object_permission w user action obj conf = true := by
  have hA : (effectiveGrant w user p.id).isAdmin = true := by
    rcases hadm with ⟨g, hmem, hu, hp2, ha⟩ | ⟨g, hmem, hp2, hm, ha⟩
    · have h1 : (directGrants w user p.id).any (fun g => g.admin) = true :=
        List.any_eq_true.mpr ⟨g, List.mem_filter.mpr ⟨hmem, by simp [hu, hp2]⟩, ha⟩
      simp [effectiveGrant, h1]
    · have h1 : (groupDerivedGrants w user p.id).any (fun g => g.admin) = true :=
        List.any_eq_true.mpr ⟨g, List.mem_filter.mpr ⟨hmem, by simp [hp2, hm]⟩, ha⟩
      simp [effectiveGrant, h1]
  constructor
  · simp [has_permission, hfind, hasPermissionOnProject, hA]
  · simp [has_object_permission, hobj, hasPermissionOnProject, hA]

/-- Witness for C3 through a group-held admin grant with an empty key set. -/
theorem admin_grant_grants_everything_witness :
    has_permission w4 1 "segments" 1 [] = true ∧
      has_object_permission w4 1 "segments" ⟨some ⟨1, 1⟩⟩ [] = true :=
  admin_grant_grants_everything w4 1 "segments" [] 1 ⟨1, 1⟩ ⟨some ⟨1, 1⟩⟩ rfl rfl
    (Or.inr ⟨⟨7, 1, true, []⟩, by simp [w4], rfl, rfl, rfl⟩)

/-- C5: requiredPermission resolves by exact configuration key first; a
read-style action ("list" or "retrieve") with no explicit mapping defaults to
VIEW_PROJECT; and a non-admin user passes has_permission exactly when the
resolved key is in the effective permission set. -/
theorem requiredPermission_resolution :
    (∀ (action : String) (conf : List (String × String)) (e : String × String),
        conf.find? (fun x => x.1 == action) = some e →
        requiredPermission action conf = some e.2) ∧
    (∀ (action : String) (conf : List (String × String)),
        conf.find? (fun x => x.1 == action) = none →
        (action = "list" ∨ action = "retrieve") →
        requiredPermission action conf = some VIEW_PROJECT) ∧
    (∀ (w : World) (user : Nat) (action : String) (pid : Nat) (p : ProjectData)
        (conf : List (String × String)) (k : String),
        findProject w pid = some p →
        isOrgAdmin w user p.organisation = false →
        (effectiveGrant w user p.id).isAdmin = false →
        requiredPermission action conf = some k →
        (has_permission w user action pid conf = true ↔
          k ∈ (effectiveGrant w user p.id).permissions)) := by
  refine ⟨?_, ?_, ?_⟩
  · intro action conf e h
    simp [requiredPermission, h]
  · intro action conf h hr
    rcases hr with rfl | rfl <;> simp [requiredPermission, h]
  · intro w user action pid p conf k hfind horg hadm hreq
    simp [has_permission, hfind, hasPermissionOnProject, horg, hadm,
      grantSatisfies, hreq]

/-- Witness for C5: an explicit mapping wins over the read default, "retrieve"
defaults to VIEW_PROJECT, and the non-admin check reduces to membership in the
effective permission set. -/
theorem requiredPermission_resolution_witness :
    requiredPermission "list" [("list", CREATE_FEATURE)] = some CREATE_FEATURE ∧
      requiredPermission "retrieve" [] = some VIEW_PROJECT ∧
      (has_permission w3 1 "list" 1 [] = true ↔
        VIEW_PROJECT ∈ (effectiveGrant w3 1 1).permissions) :=
  ⟨requiredPermission_resolution.1 "list" [("list", CREATE_FEATURE)]
      ("list", CREATE_FEATURE) rfl,
   requiredPermission_resolution.2.1 "retrieve" [] rfl (Or.inr rfl),
   requiredPermission_resolution.2.2 w3 1 "list" 1 ⟨1, 1⟩ [] VIEW_PROJECT
     rfl rfl rfl rfl⟩

/-- C10: get_use_edge_identities fails (KeyError, modelled as none) on a
context that lacks the migration_status key, which is the initial context;
after get_migration_status has run on any input, it succeeds and returns the
comparison with MIGRATION_COMPLETED. -/
theorem use_edge_identities_requires_prior_status :
    get_use_edge_identities none = none ∧
    (∀ (settings : DjangoSettings) (migrator : Nat → String) (obj : ProjectInstance)
        (ctx : SerializerContext),
        get_use_edge_identities (get_migration_status settings migrator obj ctx).2 =
          some ((get_migration_status settings migrator obj ctx).1 == MIGRATION_COMPLETED)) :=
  ⟨rfl, fun _ _ _ _ => rfl⟩

/-- Two worlds agreeing on the organisation-admin answer, the effective admin
flag and membership in the effective permission set make the same decision. -/
theorem hasPermissionOnProject_ext (wa wb : World) (user : Nat) (action : String)
    (p : ProjectData) (conf : List (String × String))
    (horg : isOrgAdmin wa user p.organisation = isOrgAdmin wb user p.organisation)
    (hadm : (effectiveGrant wa user p.id).isAdmin = (effectiveGrant wb user p.id).isAdmin)
    (hperm : ∀ k, k ∈ (effectiveGrant wa user p.id).permissions ↔
        k ∈ (effectiveGrant wb user p.id).permissions) :
    hasPermissionOnProject wa user action p conf =
      hasPermissionOnProject wb user action p conf := by
  have hgs : grantSatisfies (effectiveGrant wa user p.id) (requiredPermission action conf) =
      grantSatisfies (effectiveGrant wb user p.id) (requiredPermission action conf) := by
    cases hreq : requiredPermission action conf with
    | none => rfl
    | some k =>
      show (effectiveGrant wa user p.id).permissions.contains k =
        (effectiveGrant wb user p.id).permissions.contains k
      rw [Bool.eq_iff_iff]
      simpa using hperm k
  simp only [hasPermissionOnProject, horg, hadm, hgs]

/-- Adding a direct grant for (user, pid) prepends it to the direct grants. -/
theorem directGrants_addUserGrant (w : World) (user pid : Nat) (a : Bool)
    (perms : List String) :
    directGrants (addUserGrant w ⟨user, pid, a, perms⟩) user pid =
      ⟨user, pid, a, perms⟩ :: directGrants w user pid := by
  show List.filter _ (⟨user, pid, a, perms⟩ :: w.userGrants) = _
  rw [List.filter_cons_of_pos (by simp)]
  rfl

/-- Adding a direct grant leaves the group-derived grants unchanged. -/
theorem groupDerivedGrants_addUserGrant (w : World) (user pid : Nat) (g : UserGrant) :
    groupDerivedGrants (addUserGrant w g) user pid = groupDerivedGrants w user pid := rfl

/-- Adding a group grant leaves the direct grants unchanged. -/
theorem directGrants_addGroupGrant (w : World) (user pid : Nat) (g : GroupGrant) :
    directGrants (addGroupGrant w g) user pid = directGrants w user pid := rfl

/-- Adding a group grant on pid for a group the user belongs to prepends it to
the group-derived grants. -/
theorem groupDerivedGrants_addGroupGrant_member (w : World) (user gid pid : Nat)
    (a : Bool) (perms : List String) (hmem : isGroupMember w gid user = true) :
    groupDerivedGrants (addGroupGrant w ⟨gid, pid, a, perms⟩) user pid =
      ⟨gid, pid, a, perms⟩ :: groupDerivedGrants w user pid := by
  have hmem' : isGroupMember (addGroupGrant w ⟨gid, pid, a, perms⟩) gid user = true := hmem
  show List.filter _ (⟨gid, pid, a, perms⟩ :: w.groupGrants) = _
  rw [List.filter_cons_of_pos (by simp [hmem'])]
  rfl

/-- Adding a group grant for a group the user does not belong to leaves the
group-derived grants unchanged. -/
theorem groupDerivedGrants_addGroupGrant_nonmember (w : World) (user gid pid : Nat)
    (a : Bool) (perms : List String) (hnm : isGroupMember w gid user = false) :
    groupDerivedGrants (addGroupGrant w ⟨gid, pid, a, perms⟩) user pid =
      groupDerivedGrants w user pid := by
  have hnm' : isGroupMember (addGroupGrant w ⟨gid, pid, a, perms⟩) gid user = false := hnm
  show List.filter _ (⟨gid, pid, a, perms⟩ :: w.groupGrants) = _
  rw [List.filter_cons_of_neg (by simp [hnm'])]
  rfl

/-- Effective admin flag after adding a member-reachable group grant. -/
theorem effectiveGrant_addGroupGrant_member_isAdmin (w : World) (user gid pid : Nat)
    (a : Bool) (perms : List String) (hmem : isGroupMember w gid user = true) :
    (effectiveGrant (addGroupGrant w ⟨gid, pid, a, perms⟩) user pid).isAdmin =
      (a || (effectiveGrant w user pid).isAdmin) := by
  rw [effectiveGrant, effectiveGrant, directGrants_addGroupGrant,
    groupDerivedGrants_addGroupGrant_member w user gid pid a perms hmem]
  cases a <;> simp [List.any_cons]

/-- Effective permission membership after adding a member-reachable group
grant. -/
theorem effectiveGrant_addGroupGrant_member_mem (w : World) (user gid pid : Nat)
    (a : Bool) (perms : List String) (hmem : isGroupMember w gid user = true)
    (k : String) :
    (k ∈ (effectiveGrant (addGroupGrant w ⟨gid, pid, a, perms⟩) user pid).permissions) ↔
      (k ∈ perms ∨ k ∈ (effectiveGrant w user pid).permissions) := by
  rw [effectiveGrant, effectiveGrant, directGrants_addGroupGrant,
    groupDerivedGrants_addGroupGrant_member w user gid pid a perms hmem]
  simp only [List.map_cons, List.flatten_cons, List.mem_append]
  tauto

/-- Effective admin flag after adding a direct grant. -/
theorem effectiveGrant_addUserGrant_isAdmin (w : World) (user pid : Nat)
    (a : Bool) (perms : List String) :
    (effectiveGrant (addUserGrant w ⟨user, pid, a, perms⟩) user pid).isAdmin =
      (a || (effectiveGrant w user pid).isAdmin) := by
  rw [effectiveGrant, effectiveGrant, directGrants_addUserGrant,
    groupDerivedGrants_addUserGrant]
  cases a <;> simp [List.any_cons, Bool.or_assoc]

/-- Effective permission membership after adding a direct grant. -/
theorem effectiveGrant_addUserGrant_mem (w : World) (user pid : Nat)
    (a : Bool) (perms : List String) (k : String) :
    (k ∈ (effectiveGrant (addUserGrant w ⟨user, pid, a, perms⟩) user pid).permissions) ↔
      (k ∈ perms ∨ k ∈ (effectiveGrant w user pid).permissions) := by
  rw [effectiveGrant, effectiveGrant, directGrants_addUserGrant,
    groupDerivedGrants_addUserGrant]
  simp only [List.map_cons, List.flatten_cons, List.mem_append]
  tauto

/-- A group grant for a group the user does not belong to does not change the
effective grant at all. -/
theorem effectiveGrant_addGroupGrant_nonmember (w : World) (user gid pid : Nat)
    (a : Bool) (perms : List String) (hnm : isGroupMember w gid user = false) :
    effectiveGrant (addGroupGrant w ⟨gid, pid, a, perms⟩) user pid =
      effectiveGrant w user pid := by
  rw [effectiveGrant, effectiveGrant, directGrants_addGroupGrant,
    groupDerivedGrants_addGroupGrant_nonmember w user gid pid a perms hnm]

/-- After removal, the user is no longer a member of the group. -/
theorem isGroupMember_removeGroupMember_self (w : World) (gid user : Nat) :
    isGroupMember (removeGroupMember w gid user) gid user = false := by
  rw [Bool.eq_false_iff]
  intro hcontra
  have h2 : (w.groupMembers.filter fun m => !(m.1 == gid && m.2 == user)).any
      (fun m => m.1 == gid && m.2 == user) = true := hcontra
  obtain ⟨m, hm, hpm⟩ := List.any_eq_true.mp h2
  rw [List.mem_filter] at hm
  rw [hpm] at hm
  simp at hm

/-- C6: a user in a group holding a non-admin grant with key set perms gets
exactly the same has_permission and has_object_permission results as a user
holding the same grant directly, for every action and configuration; and
removing the user from the group revokes the derived grant, restoring the
results of the world without it. -/
theorem group_grant_equals_direct_grant (w : World) (user gid : Nat) (action : String)
    (conf : List (String × String)) (pid : Nat) (p : ProjectData) (obj : TargetObject)
    (perms : List String)
    (hmem : isGroupMember w gid user = true)
    (hfind : findProject w pid = some p)
    (hobj : obj.project = some p) :
    (has_permission (addGroupGrant w ⟨gid, p.id, false, perms⟩) user action pid conf =
      has_permission (addUserGrant w ⟨user, p.id, false, perms⟩) user action pid conf) ∧
    (has_object_permission (addGroupGrant w ⟨gid, p.id, false, perms⟩) user action obj conf =
      has_object_permission (addUserGrant w ⟨user, p.id, false, perms⟩) user action obj conf) ∧
    (has_permission (removeGroupMember (addGroupGrant w ⟨gid, p.id, false, perms⟩) gid user)
        user action pid conf =
      has_permission (removeGroupMember w gid user) user action pid conf) := by
  have hext : hasPermissionOnProject (addGroupGrant w ⟨gid, p.id, false, perms⟩)
      user action p conf =
      hasPermissionOnProject (addUserGrant w ⟨user, p.id, false, perms⟩) user action p conf := by
    apply hasPermissionOnProject_ext
    · rfl
    · rw [effectiveGrant_addGroupGrant_member_isAdmin w user gid p.id false perms hmem,
        effectiveGrant_addUserGrant_isAdmin w user p.id false perms]
    · intro k
      rw [effectiveGrant_addGroupGrant_member_mem w user gid p.id false perms hmem k,
        effectiveGrant_addUserGrant_mem w user p.id false perms k]
  refine ⟨?_, ?_, ?_⟩
  · have e1 : findProject (addGroupGrant w ⟨gid, p.id, false, perms⟩) pid = some p := hfind
    have e2 : findProject (addUserGrant w ⟨user, p.id, false, perms⟩) pid = some p := hfind
    simp only [has_permission, e1, e2, hext]
  · simp only [has_object_permission, hobj, hext]
  · have hsplit : removeGroupMember (addGroupGrant w ⟨gid, p.id, false, perms⟩) gid user =
        addGroupGrant (removeGroupMember w gid user) ⟨gid, p.id, false, perms⟩ := rfl
    rw [hsplit]
    have hnm : isGroupMember (removeGroupMember w gid user) gid user = false :=
      isGroupMember_removeGroupMember_self w gid user
    have e3 : findProject
        (addGroupGrant (removeGroupMember w gid user) ⟨gid, p.id, false, perms⟩) pid =
        some p := hfind
    have e4 : findProject (removeGroupMember w gid user) pid = some p := hfind
    simp only [has_permission, e3, e4]
    apply hasPermissionOnProject_ext
    · rfl
    · rw [effectiveGrant_addGroupGrant_nonmember _ user gid p.id false perms hnm]
    · intro k
      rw [effectiveGrant_addGroupGrant_nonmember _ user gid p.id false perms hnm]

/-- Witness for C6: group 7 with a CREATE_FEATURE grant on project 1 versus the
same grant held directly by user 1, and the revocation after removing user 1
from group 7. -/
theorem group_grant_equals_direct_grant_witness :
    (has_permission (addGroupGrant w5 ⟨7, 1, false, [CREATE_FEATURE]⟩) 1 "create" 1
        [("create", CREATE_FEATURE)] =
      has_permission (addUserGrant w5 ⟨1, 1, false, [CREATE_FEATURE]⟩) 1 "create" 1
        [("create", CREATE_FEATURE)]) ∧
    (has_object_permission (addGroupGrant w5 ⟨7, 1, false, [CREATE_FEATURE]⟩) 1 "create"
        ⟨some ⟨1, 1⟩⟩ [("create", CREATE_FEATURE)] =
      has_object_permission (addUserGrant w5 ⟨1, 1, false, [CREATE_FEATURE]⟩) 1 "create"
        ⟨some ⟨1, 1⟩⟩ [("create", CREATE_FEATURE)]) ∧
    (has_permission (removeGroupMember (addGroupGrant w5 ⟨7, 1, false, [CREATE_FEATURE]⟩) 7 1)
        1 "create" 1 [("create", CREATE_FEATURE)] =
      has_permission (removeGroupMember w5 7 1) 1 "create" 1 [("create", CREATE_FEATURE)]) :=
  group_grant_equals_direct_grant w5 1 7 "create" [("create", CREATE_FEATURE)] 1 ⟨1, 1⟩
    ⟨some ⟨1, 1⟩⟩ [CREATE_FEATURE] rfl rfl rfl
